import Mathlib

set_option linter.unusedVariables false
set_option linter.unreachableTactic false
set_option linter.unusedTactic false

/-!
Verification of the StoreHub back-office MCP server
(`src/storehub-mcp-server/main.py`) against its natural-language
specification.  Python functions are shallowly embedded as Lean
functions; times are rationals (seconds), the process-wide mutable
globals (`last_api_call_time`, `product_cache`, `actual_store_id_cache`)
become explicit state arguments and results, exceptions become
`Except String`, and the network becomes an explicit environment of
attempt outcomes.
-/

namespace StoreHub

/-- `RATE_LIMIT_DELAY = 0.35` seconds (350 ms), from main.py line 46. -/
def RATE_LIMIT_DELAY : ℚ := 35 / 100

/-- `CACHE_DURATION = 300` seconds, main.py line 51. -/
def CACHE_DURATION : ℚ := 300

/-- The two `time.time()` reads one `rate_limited_delay` invocation makes:
`t1` is the read at entry (`current_time = time.time()`), `t2` the read
after the optional sleep (`last_api_call_time = time.time()`). -/
structure ClockRead where
  t1 : ℚ
  t2 : ℚ
deriving DecidableEq, Repr

/-- The wall-clock time at which `rate_limited_delay` returns control to
its caller (the call's start time), given the recorded `last_api_call_time`
`last` and the entry clock read `t1`:

    time_since_last_call = current_time - last_api_call_time
    if time_since_last_call < RATE_LIMIT_DELAY:
        delay = RATE_LIMIT_DELAY - time_since_last_call
        await asyncio.sleep(delay)

so the caller resumes at `t1 + (RATE_LIMIT_DELAY - (t1 - last))` when the
sleep branch is taken and at `t1` otherwise (main.py lines 78-89). -/
def acquireStart (last t1 : ℚ) : ℚ :=
  if t1 - last < RATE_LIMIT_DELAY then t1 + (RATE_LIMIT_DELAY - (t1 - last)) else t1

/-- One full `rate_limited_delay` step: returns the call's start time and
the new `last_api_call_time`.  The stamp `last_api_call_time = time.time()`
(main.py line 89) sits after the `if`, so the second clock read `r.t2` is
stored unconditionally, whether or not the sleep branch ran. -/
def rate_limited_delay (last : ℚ) (r : ClockRead) : ℚ × ℚ :=
  (acquireStart last r.t1, r.t2)

/-- The start times of a serialized sequence of `rate_limited_delay`
acquisitions: each call threads the stamped `last_api_call_time` of the
previous call. -/
def runStarts (last : ℚ) : List ClockRead → List ℚ
  | [] => []
  | r :: rs => acquireStart last r.t1 :: runStarts r.t2 rs

/-- Physical plausibility of a serialized run with a monotone wall clock:
each call's entry read `t1` is no earlier than the previous stamp, and the
post-sleep read `t2` is no earlier than the moment the sleep finished. -/
def ValidRun (last : ℚ) : List ClockRead → Prop
  | [] => True
  | r :: rs => last ≤ r.t1 ∧ acquireStart last r.t1 ≤ r.t2 ∧ ValidRun r.t2 rs

instance instDecidableValidRun : ∀ (last : ℚ) (rs : List ClockRead), Decidable (ValidRun last rs)
  | _, [] => .isTrue trivial
  | last, r :: rs =>
      have : Decidable (ValidRun r.t2 rs) := instDecidableValidRun r.t2 rs
      inferInstanceAs (Decidable (_ ∧ _ ∧ _))

/-- Outcome of one underlying network attempt inside
`make_api_request`: a 2xx response with parsed JSON body `body`, a non-2xx
HTTP status (carrying `e.response.text` as a character list), or any other
exception (timeout, connection error, ...). -/
inductive Attempt (α : Type) where
  | success (body : α)
  | httpStatus (code : ℕ) (text : List Char)
  | failure (msg : String)
deriving DecidableEq, Repr

/-- The network environment a single `make_api_request` call runs in: what
the first attempt would return, and what a retry attempt would return. -/
structure NetEnv (α : Type) where
  first : Attempt α
  second : Attempt α
deriving DecidableEq, Repr

/-- Everything observable about one `make_api_request` call: its
result (`Except` models raised exceptions), the number of underlying
network attempts issued, the fixed sleeps taken outside the rate limiter
(seconds), how many times `rate_limited_delay` ran, and the value of the
`last_api_call_time` global when the call finishes. -/
structure GatewayOutcome (α : Type) where
  result : Except String α
  attempts : ℕ
  cooldowns : List ℚ
  rlAcquires : ℕ
  newLast : ℚ
deriving Repr

/-- Shallow embedding of `make_api_request` (main.py lines 137-188).
Control flow traced from the source: raise if not configured (before the
rate limiter); `await rate_limited_delay()`; dispatch GET/POST (any other
method raises `Unsupported HTTP method`); on 2xx return the parsed body;
on 409 build `error_details` from the first 200 characters of the original
response body, sleep 2.0 s, retry the identical call once *without* going
through `rate_limited_delay` again, returning the retry body on success
and raising the rate-limit-exceeded message on any retry failure; on any
other status raise `StoreHub API error: {status}`; any other exception
propagates.  `last` and `r` are the rate limiter's global timestamp and
the clock reads of its single acquisition. -/
def make_api_request (α : Type) (configured : Bool) (endpoint : String)
    (method : String) (last : ℚ) (r : ClockRead) (env : NetEnv α) :
    GatewayOutcome α :=
  if ¬configured then
    { result := .error "StoreHub API credentials not configured",
      attempts := 0, cooldowns := [], rlAcquires := 0, newLast := last }
  else
    let newLast := (rate_limited_delay last r).2
    if method = "GET" ∨ method = "POST" then
      match env.first with
      | .success v =>
          { result := .ok v, attempts := 1, cooldowns := [],
            rlAcquires := 1, newLast := newLast }
      | .httpStatus code text =>
          if code = 409 then
            let error_details := " Details: " ++ String.mk (text.take 200)
            match env.second with
            | .success v =>
                { result := .ok v, attempts := 2, cooldowns := [2],
                  rlAcquires := 1, newLast := newLast }
            | _ =>
                { result := .error ("StoreHub API rate limit exceeded. Endpoint: "
                    ++ endpoint ++ ". Please try again later." ++ error_details),
                  attempts := 2, cooldowns := [2],
                  rlAcquires := 1, newLast := newLast }
          else
            { result := .error ("StoreHub API error: " ++ toString code),
              attempts := 1, cooldowns := [],
              rlAcquires := 1, newLast := newLast }
      | .failure msg =>
          { result := .error msg, attempts := 1, cooldowns := [],
            rlAcquires := 1, newLast := newLast }
    else
      { result := .error ("Unsupported HTTP method: " ++ method),
        attempts := 0, cooldowns := [],
        rlAcquires := 1, newLast := newLast }

/-- One entry of the `product_cache` dict: key, cached display name, and
the time it was stored. -/
abbrev CacheEntry := String × String × ℚ

/-- Ordered association-list lookup, the embedding of `cache_key in
product_cache` / `product_cache[cache_key]`. -/
def lookupCache : List CacheEntry → String → Option (String × ℚ)
  | [], _ => none
  | (k, n, t) :: rest, key => if k = key then some (n, t) else lookupCache rest key

/-- Dict assignment `product_cache[cache_key] = (name, now)`: replaces an
existing entry in place, otherwise appends (Python dicts keep insertion
order). -/
def setCache : List CacheEntry → String → String × ℚ → List CacheEntry
  | [], key, v => [(key, v.1, v.2)]
  | (k, n, t) :: rest, key, v =>
      if k = key then (key, v.1, v.2) :: rest else (k, n, t) :: setCache rest key v

/-- `cleanup_cache` (main.py lines 91-106): delete every entry whose age
exceeds `CACHE_DURATION`; the commented-out store-id-cache reset is dead
code and does nothing. -/
def cleanup_cache (now : ℚ) (cache : List CacheEntry) : List CacheEntry :=
  cache.filter (fun e => decide (now - e.2.2 ≤ CACHE_DURATION))

/-- The `try` block of `get_product_name_cached` (main.py lines 126-135):
`g` is the outcome of `await make_api_request("/products/" + pid)`
followed by `.get("name", ...)` — `.ok none` is a 2xx body without a
`name` field, `.error` is any raised exception (not configured, network
error, non-2xx status).  On success the name (placeholder if the field
was absent) is cached at the entry-time clock read `now`; on failure the
placeholder is returned and nothing is written. -/
def fetchProductName (pid : String) (cache : List CacheEntry) (now : ℚ)
    (g : Except String (Option String)) : String × List CacheEntry :=
  match g with
  | .ok nameField =>
      let product_name := nameField.getD ("Product " ++ pid)
      (product_name, setCache cache ("product_" ++ pid) (product_name, now))
  | .error _ => ("Product " ++ pid, cache)

/-- `get_product_name_cached` (main.py lines 108-135): sweep the cache
when it holds more than 100 entries, serve a hit younger than
`CACHE_DURATION`, otherwise fetch through `make_api_request` (so through
the credentials check and rate limiter).  Returns the name (always a
string) and the updated cache. -/
def get_product_name_cached (pid : String) (cache : List CacheEntry) (now : ℚ)
    (configured : Bool) (last : ℚ) (r : ClockRead) (env : NetEnv (Option String)) :
    String × List CacheEntry :=
  let cache_key := "product_" ++ pid
  let cache1 := if cache.length > 100 then cleanup_cache now cache else cache
  match lookupCache cache1 cache_key with
  | some (name, t) =>
      if now - t < CACHE_DURATION then (name, cache1)
      else fetchProductName pid cache1 now
        (make_api_request (Option String) configured ("/products/" ++ pid) "GET" last r env).result
  | none =>
      fetchProductName pid cache1 now
        (make_api_request (Option String) configured ("/products/" ++ pid) "GET" last r env).result

/-- One element of the `/stores` response, with the two fields
`get_actual_store_id` reads (`store.get("id", "")`, `store.get("name", "")`). -/
structure Store where
  id : String
  name : String
deriving DecidableEq, Repr

/-- Python truthiness of an optional string (`if actual_store_id_cache:`):
false for `None` and for the empty string. -/
def truthyOptStr : Option String → Bool
  | none => false
  | some s => !s.isEmpty

/-- Python substring membership `needle in hay` on character lists. -/
def containsSub : List Char → List Char → Bool
  | [], needle => needle.isEmpty
  | c :: rest, needle => needle.isPrefixOf (c :: rest) || containsSub rest needle

/-- Python's `str.lower()` on the character list of a string (ASCII
case-folding, which is all the store names and account ids here use). -/
def lowerChars (l : List Char) : List Char := l.map Char.toLower

/-- The match condition of the store-resolution loop (main.py lines
1747-1749): the configured account id equals the store id, or equals the
store name case-insensitively, or is a case-insensitive substring of the
store name. -/
def storeMatches (accountId : String) (s : Store) : Bool :=
  accountId == s.id ||
    lowerChars accountId.data == lowerChars s.name.data ||
    containsSub (lowerChars s.name.data) (lowerChars accountId.data)

/-- The `for store in stores_data` scan: first store satisfying
`storeMatches`, in list order. -/
def findMatch (accountId : String) : List Store → Option Store
  | [] => none
  | s :: rest => if storeMatches accountId s then some s else findMatch accountId rest

/-- `get_actual_store_id` (main.py lines 1720-1761).  `cache` is the
`actual_store_id_cache` global, `apiResult` the outcome of
`await make_api_request("/stores")` (`.error` = raised exception, caught
and turned into `None`).  Returns (Python return value, new cache):
truthy cache returned as is; empty list → `None`; a single store's id is
cached and returned with no name matching; otherwise the first matching
store, falling back to the first store of the list. -/
def get_actual_store_id (accountId : String) (cache : Option String)
    (apiResult : Except String (List Store)) : Option String × Option String :=
  if truthyOptStr cache then (cache, cache)
  else
    match apiResult with
    | .error _ => (none, cache)
    | .ok [] => (none, cache)
    | .ok [s] => (some s.id, some s.id)
    | .ok (s0 :: s1 :: rest) =>
        match findMatch accountId (s0 :: s1 :: rest) with
        | some s => (some s.id, some s.id)
        | none => (some s0.id, some s0.id)

/-- The chunking loop of `handle_get_sales_analytics` (main.py lines
1025-1051), dates as integer day numbers: starting at `cur`, emit the
closed sub-range `(cur, min (cur + 14) to)` and advance to the day after
its end, until `cur > to`.  The structural fuel is exactly the number of
remaining days plus one, which bounds the number of iterations. -/
def chunkGo : ℕ → ℤ → ℤ → List (ℤ × ℤ)
  | 0, _, _ => []
  | fuel + 1, cur, toD =>
      if cur ≤ toD then
        (cur, min (cur + 14) toD) :: chunkGo fuel (min (cur + 14) toD + 1) toD
      else []

/-- The full chunk plan for a date range. -/
def chunkPlan (fromD toD : ℤ) : List (ℤ × ℤ) :=
  chunkGo (toD + 1 - fromD).toNat fromD toD

/-- The body of the chunk loop (main.py lines 1042-1051): fetch each
sub-range through the gateway; `.ok (some data)` extends the accumulator,
`.ok none` (null JSON) contributes nothing, and a raised exception is
logged and skipped.  Returns the collected transactions in chunk order
and the number of gateway calls issued. -/
def fetchChunks {τ : Type} (fetch : ℤ → ℤ → Except String (Option (List τ))) :
    List (ℤ × ℤ) → List τ × ℕ
  | [] => ([], 0)
  | (a, b) :: rest =>
      let tail := fetchChunks fetch rest
      match fetch a b with
      | .ok (some data) => (data ++ tail.1, tail.2 + 1)
      | .ok none => (tail.1, tail.2 + 1)
      | .error _ => (tail.1, tail.2 + 1)

/-- The `all_transactions` computation of `handle_get_sales_analytics`
(main.py lines 1006-1051): one uncaught gateway call when the span is at
most 14 days, otherwise the chunk loop (whose per-chunk failures are
caught).  Returns the collected list (or the propagated exception) and
the number of `/transactions` gateway calls issued. -/
def collect_transactions {τ : Type} (fromD toD : ℤ)
    (fetch : ℤ → ℤ → Except String (Option (List τ))) :
    Except String (List τ) × ℕ :=
  if toD - fromD ≤ 14 then
    match fetch fromD toD with
    | .ok (some data) => (.ok data, 1)
    | .ok none => (.ok [], 1)
    | .error e => (.error e, 1)
  else
    let res := fetchChunks fetch (chunkPlan fromD toD)
    (.ok res.1, res.2)

/-- `handle_get_sales_analytics` (main.py lines 971-1063) up to the
report-rendering tail (out of scope per spec section 1): validate the
range (span over 90 days, then from after to) before anything touches the
network, resolve the store id (`resolver` is the pair of
`get_actual_store_id`'s value and the number of gateway calls it made),
collect the transactions, and fail with the no-transactions message when
nothing was collected.  Error texts are the source's messages without
their emoji/quote decorations.  The second component counts all gateway
calls made by the handler. -/
def handle_get_sales_analytics {τ : Type} (fromD toD : ℤ)
    (resolver : Option String × ℕ)
    (fetch : ℤ → ℤ → Except String (Option (List τ))) :
    Except String (List τ) × ℕ :=
  let date_diff := toD - fromD
  if date_diff > 90 then
    (.error "Date range too large. Please limit to 90 days or less to avoid API limits.", 0)
  else if date_diff < 0 then
    (.error "Invalid date range. from_date must be before to_date.", 0)
  else
    match resolver with
    | (none, rcalls) =>
        (.error "Could not determine store ID. Please check your store configuration.", rcalls)
    | (some _, rcalls) =>
        let res := collect_transactions fromD toD fetch
        match res.1 with
        | .error e => (.error e, rcalls + res.2)
        | .ok allTx =>
            if allTx.isEmpty then (.error "No transactions found.", rcalls + res.2)
            else (.ok allTx, rcalls + res.2)

/-- Lengths of the months of 2024 (a leap year), for turning the concrete
dates of the spec's chunking example into day numbers. -/
def daysInMonth2024 : ℕ → ℕ
  | 1 => 31 | 2 => 29 | 3 => 31 | 4 => 30 | 5 => 31 | 6 => 30
  | 7 => 31 | 8 => 31 | 9 => 30 | 10 => 31 | 11 => 30 | 12 => 31
  | _ => 0

/-- Day number of a 2024 date, counted from 2024-01-01 = 0, so that
differences agree with Python's `(to_dt - from_dt).days`. -/
def dayOfYear2024 (m d : ℕ) : ℤ :=
  (((List.range (m - 1)).map (fun i => daysInMonth2024 (i + 1))).sum : ℤ) + d - 1

/-- Python truthiness of the string arguments checked by
`if not all([ref_id, first_name, last_name])`. -/
def truthyStr : Option String → Bool
  | none => false
  | some s => !s.isEmpty

/-- `handle_update_customer` (main.py lines 1894-1937): after the
required-field check it issues `make_api_request("/customers/" + refId,
method="PUT", ...)`; the handler's `except` turns any raised exception
into the error text.  Returns the response text (error texts without
their emoji decorations) and the number of network attempts issued. -/
def handle_update_customer {α : Type} (refId firstName lastName : Option String)
    (configured : Bool) (last : ℚ) (r : ClockRead) (env : NetEnv α) :
    String × ℕ :=
  if !(truthyStr refId && truthyStr firstName && truthyStr lastName) then
    ("Missing required fields: refId, firstName, lastName", 0)
  else
    let g := make_api_request α configured ("/customers/" ++ refId.getD "") "PUT" last r env
    match g.result with
    | .error e => ("Error updating customer: " ++ e, g.attempts)
    | .ok _ => ("CUSTOMER UPDATED", g.attempts)

/-- Every name bound at module level in main.py: the imports (lines
7-22), the module globals (lines 37-60) and the module-level `def`s.
`STOREHUB_STORE_ID` is referenced at line 682 but appears nowhere here. -/
def moduleGlobalNames : List String :=
  ["asyncio", "os", "sys", "datetime", "timedelta", "Any", "Dict", "List",
   "Optional", "logging", "time", "httpx", "Server", "Tool", "TextContent",
   "stdio_server", "base64", "json", "load_dotenv", "logger",
   "STOREHUB_API_BASE", "STOREHUB_API_KEY", "STOREHUB_ACCOUNT_ID",
   "RATE_LIMIT_DELAY", "last_api_call_time", "product_cache",
   "CACHE_DURATION", "actual_store_id_cache", "server", "api_configured",
   "get_auth_headers", "rate_limited_delay", "cleanup_cache",
   "get_product_name_cached", "make_api_request", "list_tools", "call_tool",
   "handle_get_inventory", "handle_get_products", "handle_get_sales_analytics",
   "handle_get_customers", "handle_get_stores", "handle_test_api_connection",
   "handle_get_employees", "handle_search_timesheets", "get_actual_store_id",
   "handle_create_online_transaction", "handle_cancel_online_transaction",
   "handle_create_customer", "handle_update_customer",
   "handle_get_customer_by_id", "handle_get_product_by_id",
   "handle_create_transaction", "handle_cancel_transaction", "main"]

/-- Python global-name resolution: a name evaluates to its value when the
module defines it and raises `NameError` otherwise. -/
def resolveGlobal (values : String → String) (n : String) : Option String :=
  if n ∈ moduleGlobalNames then some (values n) else none

/-- `handle_get_inventory` (main.py lines 678-751): the endpoint f-string
`f"/inventory/{STOREHUB_STORE_ID}"` evaluates its interpolated name
before any request can be issued; an undefined name raises `NameError`,
caught by the handler's `except` (line 750).  The report rendering on the
success path is elided (out of scope per spec section 1).  Returns the
response text and the number of network attempts issued. -/
def handle_get_inventory {α : Type} (values : String → String)
    (configured : Bool) (last : ℚ) (r : ClockRead) (env : NetEnv α) :
    String × ℕ :=
  match resolveGlobal values "STOREHUB_STORE_ID" with
  | none =>
      ("Error retrieving inventory: name STOREHUB_STORE_ID is not defined", 0)
  | some sid =>
      let g := make_api_request α configured ("/inventory/" ++ sid) "GET" last r env
      match g.result with
      | .error e => ("Error retrieving inventory: " ++ e, g.attempts)
      | .ok _ => ("CURRENT INVENTORY STATUS", g.attempts)

lemma le_acquireStart (last t1 : ℚ) : last + RATE_LIMIT_DELAY ≤ acquireStart last t1 := by
  unfold acquireStart
  split <;> linarith

/-- C1: under serialized access with a monotone clock, the gap between the
start times of any two consecutive calls through the rate limiter is at
least `RATE_LIMIT_DELAY` (350 ms); the stamp is written unconditionally
after each acquisition, which is what threads `r.t2` into the next call. -/
theorem rate_limiter_min_gap (last : ℚ) (rs : List ClockRead)
    (h : ValidRun last rs) :
    (runStarts last rs).Chain' (fun a b => a + RATE_LIMIT_DELAY ≤ b) := by
  induction rs generalizing last with
  | nil => simp [runStarts]
  | cons r rs ih =>
      obtain ⟨h1, h2, h3⟩ := h
      cases rs with
      | nil => simp [runStarts]
      | cons r' rs' =>
          refine List.chain'_cons.mpr ⟨?_, ih r.t2 h3⟩
          calc acquireStart last r.t1 + RATE_LIMIT_DELAY
              ≤ r.t2 + RATE_LIMIT_DELAY := by linarith
            _ ≤ acquireStart r.t2 r'.t1 := le_acquireStart _ _

/-- Concrete run witnessing `rate_limiter_min_gap`: three calls arriving
only 0.1 s apart are spread out to ≥ 0.35 s gaps. -/
theorem rate_limiter_min_gap_witness :
    ValidRun 0 [⟨1/10, 7/20⟩, ⟨2/5, 7/10⟩, ⟨4/5, 21/20⟩] ∧
      (runStarts 0 [⟨1/10, 7/20⟩, ⟨2/5, 7/10⟩, ⟨4/5, 21/20⟩]).Chain'
        (fun a b => a + RATE_LIMIT_DELAY ≤ b) := by
  have hv : ValidRun 0 [⟨1/10, 7/20⟩, ⟨2/5, 7/10⟩, ⟨4/5, 21/20⟩] := by
    refine ⟨by norm_num, ?_, by norm_num, ?_, by norm_num, ?_, trivial⟩ <;>
      simp [acquireStart, RATE_LIMIT_DELAY] <;> norm_num
  exact ⟨hv, rate_limiter_min_gap 0 _ hv⟩

/-- C2: on a 409 first response, the gateway sleeps a fixed 2-second
cooldown and retries the identical call once without re-acquiring the
rate limiter; if the retry succeeds its parsed body is returned with
exactly 2 network attempts in total, and if the retry fails with any
error the call fails with the rate-limit-exceeded message embedding a
snippet of at most 200 characters of the original 409 response body. -/
theorem gateway_409_retry {α : Type} (configured : Bool) (endpoint method : String)
    (last : ℚ) (r : ClockRead) (env : NetEnv α) (text : List Char)
    (hcfg : configured = true) (hm : method = "GET" ∨ method = "POST")
    (h409 : env.first = .httpStatus 409 text) :
    let g := make_api_request α configured endpoint method last r env
    g.cooldowns = [2] ∧ g.attempts = 2 ∧ g.rlAcquires = 1 ∧
      ((∀ v, env.second = .success v →
          g.result = .ok v) ∧
       ((∀ v, env.second ≠ .success v) →
          g.result = .error ("StoreHub API rate limit exceeded. Endpoint: "
            ++ endpoint ++ ". Please try again later."
            ++ (" Details: " ++ String.mk (text.take 200))) ∧
          (String.mk (text.take 200)).length ≤ 200)) := by
  subst hcfg
  have h200 : (String.mk (text.take 200)).length ≤ 200 := List.length_take_le 200 text
  cases env with
  | mk first second =>
      cases h409
      cases second with
      | success v =>
          refine ⟨?_, ?_, ?_, ?_, ?_⟩ <;>
            simp [make_api_request, hm] <;> intro v h <;> simp_all
      | httpStatus c t =>
          refine ⟨?_, ?_, ?_, ?_, ?_⟩ <;>
            simp [make_api_request, hm] <;> simp_all [h200]
      | failure m =>
          refine ⟨?_, ?_, ?_, ?_, ?_⟩ <;>
            simp [make_api_request, hm] <;> simp_all [h200]

/-- Witness for `gateway_409_retry`: a concrete 409 followed by a
successful retry returns the retry body with 2 attempts and one 2 s
cooldown. -/
theorem gateway_409_retry_witness :
    let env : NetEnv ℕ := ⟨.httpStatus 409 ['q', 'u', 'o', 't', 'a'], .success 7⟩
    let g := make_api_request ℕ true "/transactions" "GET" 0 ⟨1, 2⟩ env
    g.cooldowns = [2] ∧ g.attempts = 2 ∧ g.rlAcquires = 1 ∧ g.result = .ok 7 := by
  intro env g
  obtain ⟨h1, h2, h3, h4, _⟩ :=
    gateway_409_retry true "/transactions" "GET" 0 ⟨1, 2⟩ env
      ['q', 'u', 'o', 't', 'a'] rfl (Or.inl rfl) rfl
  exact ⟨h1, h2, h3, h4 7 rfl⟩

/-- C3 counterexample: the claim says the rate limiter's last-call
timestamp is mutated on every gateway invocation regardless of outcome,
but a not-configured call raises before `rate_limited_delay` runs: with
`last_api_call_time = 5` the call leaves it at 5 and the limiter never
runs. -/
theorem gateway_not_configured_skips_limiter :
    let g := make_api_request ℕ false "/stores" "GET" 5 ⟨6, 7⟩ ⟨.success 0, .success 0⟩
    g.rlAcquires = 0 ∧ g.newLast = 5 ∧
      g.result = .error "StoreHub API credentials not configured" := by
  exact ⟨rfl, rfl, rfl⟩

/-- C3 amended: on every gateway invocation *with credentials
configured* — success, unsupported-method failure, or HTTP error — the
rate limiter runs exactly once and unconditionally stamps its second
clock read as the new last-call timestamp; a not-configured invocation
raises before the limiter and leaves the timestamp untouched. -/
theorem gateway_limiter_stamped_when_configured {α : Type}
    (endpoint method : String) (last : ℚ) (r : ClockRead) (env : NetEnv α) :
    ((make_api_request α true endpoint method last r env).rlAcquires = 1 ∧
      (make_api_request α true endpoint method last r env).newLast = r.t2) ∧
    ((make_api_request α false endpoint method last r env).rlAcquires = 0 ∧
      (make_api_request α false endpoint method last r env).newLast = last) := by
  constructor
  · unfold make_api_request
    rw [if_neg (by simp)]
    dsimp only [rate_limited_delay]
    by_cases hm : method = "GET" ∨ method = "POST"
    · rw [if_pos hm]
      rcases env.first with v | ⟨c, t⟩ | m
      · exact ⟨rfl, rfl⟩
      · dsimp only
        by_cases hc : c = 409
        · rw [if_pos hc]
          rcases env.second with v' | ⟨c', t'⟩ | m' <;> exact ⟨rfl, rfl⟩
        · rw [if_neg hc]
          exact ⟨rfl, rfl⟩
      · exact ⟨rfl, rfl⟩
    · rw [if_neg hm]
      exact ⟨rfl, rfl⟩
  · unfold make_api_request
    rw [if_pos (by simp)]
    exact ⟨rfl, rfl⟩

lemma findMatch_none (a : String) (l : List Store)
    (h : ∀ t ∈ l, storeMatches a t = false) : findMatch a l = none := by
  induction l with
  | nil => rfl
  | cons s rest ih =>
      have hs := h s (List.mem_cons_self s rest)
      simp only [findMatch, hs, Bool.false_eq_true, if_false]
      exact ih fun t ht => h t (List.mem_cons_of_mem _ ht)

lemma findMatch_first (a : String) (pre : List Store) (s : Store) (post : List Store)
    (hpre : ∀ t ∈ pre, storeMatches a t = false) (hs : storeMatches a s = true) :
    findMatch a (pre ++ s :: post) = some s := by
  induction pre with
  | nil => simp [findMatch, hs]
  | cons p pre' ih =>
      have hp := hpre p (List.mem_cons_self p pre')
      simp only [List.cons_append, findMatch, hp, Bool.false_eq_true, if_false]
      exact ih fun t ht => hpre t (List.mem_cons_of_mem _ ht)

/-- C5: `get_actual_store_id` returns the cached id when one is resolved;
otherwise it fetches the store list and yields no id on an empty list;
a single store's id is returned with no name matching; with several
stores the first one matching the account id by id equality,
case-insensitive name equality or case-insensitive name containment is
returned; with no match the first store's id is returned.  In each
resolving case the returned id is also written to the cache. -/
theorem store_resolution_spec :
    (∀ (a : String) (c : Option String) env, truthyOptStr c = true →
        get_actual_store_id a c env = (c, c)) ∧
    (∀ a : String, get_actual_store_id a none (.ok []) = (none, none)) ∧
    (∀ (a : String) (s : Store),
        get_actual_store_id a none (.ok [s]) = (some s.id, some s.id)) ∧
    (∀ (a : String) (pre : List Store) (s : Store) (post : List Store),
        2 ≤ (pre ++ s :: post).length →
        (∀ t ∈ pre, storeMatches a t = false) → storeMatches a s = true →
        get_actual_store_id a none (.ok (pre ++ s :: post)) = (some s.id, some s.id)) ∧
    (∀ (a : String) (s0 : Store) (rest : List Store), rest ≠ [] →
        (∀ t ∈ s0 :: rest, storeMatches a t = false) →
        get_actual_store_id a none (.ok (s0 :: rest)) = (some s0.id, some s0.id)) := by
  refine ⟨?_, ?_, ?_, ?_, ?_⟩
  · intro a c env h
    simp [get_actual_store_id, h]
  · intro a
    simp [get_actual_store_id, truthyOptStr]
  · intro a s
    simp [get_actual_store_id, truthyOptStr]
  · intro a pre s post hlen hpre hs
    have hfm : findMatch a (pre ++ s :: post) = some s := findMatch_first a pre s post hpre hs
    cases pre with
    | nil =>
        cases post with
        | nil => simp at hlen
        | cons q post' =>
            simp only [List.nil_append] at hfm ⊢
            simp [get_actual_store_id, truthyOptStr, hfm]
    | cons p pre' =>
        obtain ⟨x, l', hx⟩ : ∃ x l', pre' ++ s :: post = x :: l' := by
          cases h : pre' ++ s :: post with
          | nil => exact absurd h (by simp)
          | cons x l' => exact ⟨x, l', rfl⟩
        simp only [List.cons_append, hx] at hfm ⊢
        simp [get_actual_store_id, truthyOptStr, hfm]
  · intro a s0 rest hne h
    have hfm : findMatch a (s0 :: rest) = none := findMatch_none a _ h
    cases rest with
    | nil => exact absurd rfl hne
    | cons s1 rest' => simp [get_actual_store_id, truthyOptStr, hfm]

/-- Witness for `store_resolution_spec`, on the spec's own examples: a
truthy cache is returned; an empty list resolves to nothing; a singleton
list resolves to its store; among three stores the one whose name equals
the account id case-insensitively wins; with no match among three stores
the first is returned. -/
theorem store_resolution_spec_witness :
    get_actual_store_id "MyStore" (some "cached") (.ok []) = (some "cached", some "cached") ∧
    get_actual_store_id "MyStore" none (.ok []) = (none, none) ∧
    get_actual_store_id "MyStore" none (.ok [⟨"id9", "Whatever"⟩]) = (some "id9", some "id9") ∧
    get_actual_store_id "MyStore" none
      (.ok [⟨"id1", "Alpha"⟩, ⟨"id2", "mystore"⟩, ⟨"id3", "Gamma"⟩]) = (some "id2", some "id2") ∧
    get_actual_store_id "MyStore" none
      (.ok [⟨"id1", "Alpha"⟩, ⟨"id2", "Beta"⟩, ⟨"id3", "Gamma"⟩]) = (some "id1", some "id1") := by
  refine ⟨store_resolution_spec.1 "MyStore" (some "cached") _ (by decide),
    store_resolution_spec.2.1 "MyStore",
    store_resolution_spec.2.2.1 "MyStore" ⟨"id9", "Whatever"⟩, ?_, ?_⟩
  · exact store_resolution_spec.2.2.2.1 "MyStore" [⟨"id1", "Alpha"⟩] ⟨"id2", "mystore"⟩
      [⟨"id3", "Gamma"⟩] (by decide) (by decide) (by decide)
  · exact store_resolution_spec.2.2.2.2 "MyStore" ⟨"id1", "Alpha"⟩
      [⟨"id2", "Beta"⟩, ⟨"id3", "Gamma"⟩] (by decide) (by decide)

/-- C4: for from_date 2024-01-01 and to_date 2024-02-15 (a 45-day span)
with a resolved store id, the chunk plan has exactly 4 sub-ranges, each
chunk starts the day after the previous one ends (contiguous and
non-overlapping), each spans at most 14 days, the first starts at
from_date and the last ends at to_date, and the collected transactions
are the concatenation of the chunk results in chronological chunk
order with exactly 4 transaction gateway calls. -/
theorem sales_chunking_jan01_feb15 {τ : Type} (data : ℤ → ℤ → List τ) :
    dayOfYear2024 2 15 - dayOfYear2024 1 1 = 45 ∧
    chunkPlan (dayOfYear2024 1 1) (dayOfYear2024 2 15) =
      [(0, 14), (15, 29), (30, 44), (45, 45)] ∧
    (chunkPlan (dayOfYear2024 1 1) (dayOfYear2024 2 15)).length = 4 ∧
    List.Chain' (fun a b : ℤ × ℤ => b.1 = a.2 + 1)
      (chunkPlan (dayOfYear2024 1 1) (dayOfYear2024 2 15)) ∧
    (∀ c ∈ chunkPlan (dayOfYear2024 1 1) (dayOfYear2024 2 15),
      c.1 ≤ c.2 ∧ c.2 - c.1 ≤ 14) ∧
    (chunkPlan (dayOfYear2024 1 1) (dayOfYear2024 2 15)).head?.map Prod.fst =
      some (dayOfYear2024 1 1) ∧
    (chunkPlan (dayOfYear2024 1 1) (dayOfYear2024 2 15)).getLast?.map Prod.snd =
      some (dayOfYear2024 2 15) ∧
    collect_transactions (dayOfYear2024 1 1) (dayOfYear2024 2 15)
        (fun a b => .ok (some (data a b))) =
      (.ok (data 0 14 ++ (data 15 29 ++ (data 30 44 ++ (data 45 45 ++ [])))), 4) := by
  have hplan : chunkPlan (dayOfYear2024 1 1) (dayOfYear2024 2 15) =
      [(0, 14), (15, 29), (30, 44), (45, 45)] := by decide
  refine ⟨by decide, hplan, by decide, ?_, by decide, by decide, by decide, ?_⟩
  · rw [hplan]
    refine List.chain'_cons.mpr ⟨by norm_num, List.chain'_cons.mpr ⟨by norm_num,
      List.chain'_cons.mpr ⟨by norm_num, List.chain'_singleton _⟩⟩⟩
  have hf : dayOfYear2024 1 1 = 0 := by decide
  have ht : dayOfYear2024 2 15 = 45 := by decide
  rw [hf, ht] at hplan ⊢
  unfold collect_transactions
  rw [if_neg (by decide), hplan]
  simp [fetchChunks]

/-- C6: the sales-analytics operation rejects a from_date later than its
to_date, and rejects a span over 90 days, in both cases before any
network call is attempted (zero gateway calls, whatever the resolver and
fetcher would do). -/
theorem sales_validation_before_network {τ : Type} (fromD toD : ℤ)
    (resolver : Option String × ℕ)
    (fetch : ℤ → ℤ → Except String (Option (List τ)))
    (h : toD - fromD < 0 ∨ toD - fromD > 90) :
    (handle_get_sales_analytics fromD toD resolver fetch).2 = 0 ∧
    (toD - fromD > 90 →
      handle_get_sales_analytics fromD toD resolver fetch =
        (.error "Date range too large. Please limit to 90 days or less to avoid API limits.", 0)) ∧
    (toD - fromD < 0 → ¬toD - fromD > 90 →
      handle_get_sales_analytics fromD toD resolver fetch =
        (.error "Invalid date range. from_date must be before to_date.", 0)) := by
  unfold handle_get_sales_analytics
  rcases h with h | h
  · by_cases h90 : toD - fromD > 90
    · rw [if_pos h90]
      exact ⟨rfl, fun _ => rfl, fun _ hn => absurd h90 hn⟩
    · rw [if_neg h90, if_pos h]
      exact ⟨rfl, fun h' => absurd h' h90, fun _ _ => rfl⟩
  · rw [if_pos h]
    exact ⟨rfl, fun _ => rfl, fun hlt _ => absurd hlt (by omega)⟩

/-- Witness for `sales_validation_before_network`: from_date 10 days
after to_date is rejected with no gateway call even though the fetcher
would have produced transactions. -/
theorem sales_validation_before_network_witness :
    (handle_get_sales_analytics (τ := ℕ) 10 5 (some "s", 3) (fun _ _ => .ok (some [1]))).2 = 0 ∧
    handle_get_sales_analytics (τ := ℕ) 10 5 (some "s", 3) (fun _ _ => .ok (some [1])) =
      (.error "Invalid date range. from_date must be before to_date.", 0) := by
  obtain ⟨h1, _, h3⟩ :=
    sales_validation_before_network (τ := ℕ) 10 5 (some "s", 3)
      (fun _ _ => .ok (some [1])) (Or.inl (by norm_num))
  exact ⟨h1, h3 (by norm_num) (by norm_num)⟩

/-- C8: during a chunked fetch a failing chunk is skipped, not fatal:
`fetchChunks` always completes, attempts every chunk of the plan (the
call count equals the plan length even when chunks fail), and collects
exactly the concatenation of the successful chunks' results in chunk
order. -/
theorem chunk_failures_skipped {τ : Type}
    (fetch : ℤ → ℤ → Except String (Option (List τ))) (plan : List (ℤ × ℤ)) :
    fetchChunks fetch plan =
      ((plan.filterMap fun c =>
          match fetch c.1 c.2 with
          | .ok (some d) => some d
          | .ok none => none
          | .error _ => none).flatten,
        plan.length) := by
  induction plan with
  | nil => simp [fetchChunks]
  | cons c rest ih =>
      obtain ⟨a, b⟩ := c
      cases h : fetch a b with
      | ok o =>
          cases o with
          | some d => simp [fetchChunks, h, ih, List.filterMap_cons]
          | none => simp [fetchChunks, h, ih, List.filterMap_cons]
      | error e => simp [fetchChunks, h, ih, List.filterMap_cons]

/-- C7: `get_product_name_cached` falls back to the placeholder
`"Product " ++ id` on a failed lookup and on a missing name field; a
failed fetch writes nothing to the cache (the placeholder is not
cached), so a later call for the same id retries the real lookup and
obtains the real name.  (The function is total, so it returns a string
on every input and every fetch outcome.) -/
theorem product_name_cache_spec :
    (∀ (pid : String) (cache : List CacheEntry) (now : ℚ) cfg last r env e,
        (make_api_request (Option String) cfg ("/products/" ++ pid) "GET" last r env).result
          = .error e →
        lookupCache (if cache.length > 100 then cleanup_cache now cache else cache)
          ("product_" ++ pid) = none →
        get_product_name_cached pid cache now cfg last r env =
          ("Product " ++ pid,
            if cache.length > 100 then cleanup_cache now cache else cache)) ∧
    (∀ (pid : String) (cache : List CacheEntry) (now : ℚ) cfg last r env,
        (make_api_request (Option String) cfg ("/products/" ++ pid) "GET" last r env).result
          = .ok none →
        lookupCache (if cache.length > 100 then cleanup_cache now cache else cache)
          ("product_" ++ pid) = none →
        (get_product_name_cached pid cache now cfg last r env).1 = "Product " ++ pid) ∧
    (∀ (pid : String) (now now' : ℚ) cfg cfg' last last' r r' env env' e (name : String),
        (make_api_request (Option String) cfg ("/products/" ++ pid) "GET" last r env).result
          = .error e →
        (make_api_request (Option String) cfg' ("/products/" ++ pid) "GET" last' r' env').result
          = .ok (some name) →
        get_product_name_cached pid [] now cfg last r env = ("Product " ++ pid, []) ∧
        (get_product_name_cached pid
            (get_product_name_cached pid [] now cfg last r env).2
            now' cfg' last' r' env').1 = name) := by
  refine ⟨?_, ?_, ?_⟩
  · intro pid cache now cfg last r env e herr hmiss
    unfold get_product_name_cached
    simp only []
    rw [hmiss, herr]
    rfl
  · intro pid cache now cfg last r env hok hmiss
    unfold get_product_name_cached
    simp only []
    rw [hmiss, hok]
    rfl
  · intro pid now now' cfg cfg' last last' r r' env env' e name herr hok
    have h1 : get_product_name_cached pid [] now cfg last r env = ("Product " ++ pid, []) := by
      unfold get_product_name_cached
      simp only [List.length_nil]
      rw [if_neg (by norm_num)]
      rw [(rfl : lookupCache [] ("product_" ++ pid) = none), herr]
      rfl
    refine ⟨h1, ?_⟩
    rw [h1]
    unfold get_product_name_cached
    simp only [List.length_nil]
    rw [if_neg (by norm_num)]
    rw [(rfl : lookupCache [] ("product_" ++ pid) = none), hok]
    rfl

/-- Witness for `product_name_cache_spec`: a network failure for product
"42" yields the placeholder and an unchanged empty cache, a body without
a name field yields the placeholder, and after a failed fetch a retry
with a working network returns the real name. -/
theorem product_name_cache_spec_witness :
    get_product_name_cached "42" [] 0 true 0 ⟨1, 2⟩ ⟨.failure "boom", .failure "x"⟩ =
      ("Product 42", []) ∧
    (get_product_name_cached "42" [] 0 true 0 ⟨1, 2⟩ ⟨.success none, .failure "x"⟩).1 =
      "Product 42" ∧
    (get_product_name_cached "42"
        (get_product_name_cached "42" [] 0 true 0 ⟨1, 2⟩ ⟨.failure "boom", .failure "x"⟩).2
        7 true 1 ⟨3, 4⟩ ⟨.success (some "Latte"), .failure "x"⟩).1 = "Latte" := by
  obtain ⟨hA, hB, hC⟩ := product_name_cache_spec
  refine ⟨hA "42" [] 0 true 0 ⟨1, 2⟩ ⟨.failure "boom", .failure "x"⟩ "boom" rfl rfl,
    hB "42" [] 0 true 0 ⟨1, 2⟩ ⟨.success none, .failure "x"⟩ rfl rfl, ?_⟩
  exact (hC "42" 0 7 true true 0 1 ⟨1, 2⟩ ⟨3, 4⟩
    ⟨.failure "boom", .failure "x"⟩ ⟨.success (some "Latte"), .failure "x"⟩
    "boom" "Latte" rfl rfl).2

/-- C9: with the three required fields present, `handle_update_customer`
always fails: the gateway dispatches only GET and POST, so its PUT
request raises the unsupported-method error (or the not-configured error
when credentials are absent) with zero network attempts, and the handler
returns the corresponding error text.  No successful customer update is
possible. -/
theorem update_customer_always_fails {α : Type}
    (refId firstName lastName : Option String) (cfg : Bool) (last : ℚ)
    (r : ClockRead) (env : NetEnv α)
    (h : truthyStr refId = true ∧ truthyStr firstName = true ∧ truthyStr lastName = true) :
    (handle_update_customer refId firstName lastName cfg last r env).2 = 0 ∧
    (handle_update_customer refId firstName lastName cfg last r env).1 =
      (if cfg then "Error updating customer: Unsupported HTTP method: PUT"
       else "Error updating customer: StoreHub API credentials not configured") := by
  obtain ⟨h1, h2, h3⟩ := h
  unfold handle_update_customer
  rw [h1, h2, h3]
  cases cfg with
  | false => exact ⟨rfl, rfl⟩
  | true =>
      unfold make_api_request
      rw [if_neg (by simp)]
      rw [if_neg (by decide)]
      exact ⟨rfl, rfl⟩

/-- Witness for `update_customer_always_fails`: a fully populated,
configured update request still makes zero network attempts and reports
the unsupported-method error. -/
theorem update_customer_always_fails_witness :
    (handle_update_customer (α := ℕ) (some "c1") (some "Ada") (some "Lovelace")
        true 0 ⟨1, 2⟩ ⟨.success 3, .success 4⟩).2 = 0 ∧
    (handle_update_customer (α := ℕ) (some "c1") (some "Ada") (some "Lovelace")
        true 0 ⟨1, 2⟩ ⟨.success 3, .success 4⟩).1 =
      "Error updating customer: Unsupported HTTP method: PUT" := by
  obtain ⟨h1, h2⟩ :=
    update_customer_always_fails (α := ℕ) (some "c1") (some "Ada") (some "Lovelace")
      true 0 ⟨1, 2⟩ ⟨.success 3, .success 4⟩ ⟨rfl, rfl, rfl⟩
  exact ⟨h1, h2⟩

/-- C10: `handle_get_inventory` references the global name
`STOREHUB_STORE_ID`, which no module-level binding of main.py defines,
so evaluating the endpoint f-string raises `NameError` before any API
request is issued: for every environment the handler returns its error
text with zero network attempts, and inventory data is never
retrieved. -/
theorem get_inventory_always_fails {α : Type} (values : String → String)
    (cfg : Bool) (last : ℚ) (r : ClockRead) (env : NetEnv α) :
    "STOREHUB_STORE_ID" ∉ moduleGlobalNames ∧
    handle_get_inventory values cfg last r env =
      ("Error retrieving inventory: name STOREHUB_STORE_ID is not defined", 0) := by
  refine ⟨by decide, ?_⟩
  unfold handle_get_inventory resolveGlobal
  rw [if_neg (by decide)]

end StoreHub
